import Mathlib

/-! Coordinate-system viewer: camera transform, event handling and sampling.

A shallow embedding of `src/main.cpp` (an SDL2 viewer for a pannable, zoomable
Cartesian grid with function overlays) together with theorems about it.

Modelling conventions.

* The `int` globals (`SCREEN_WIDTH`, `SCREEN_HEIGHT`, `camX`, `camY`,
  `lastMouseX`, `lastMouseY`) and the integer payloads of SDL events are `ℤ`;
  wrap-around of 32-bit integers is not modelled.
* `float` values are elements of an arbitrary linearly ordered field `F` with a
  floor function: arithmetic is exact, there is no rounding, no infinity and no
  NaN.  The float literals `1.5f`, `2.0f`, `1.1f`, `50.0f`, `0.1f` denote the
  decimal numbers they are written as.
* Converting a `float` to an `int` (the compound assignments `camX -= ...`,
  `camY += ...`) truncates toward zero: `truncToInt`.
* `int / int` is C integer division, which truncates toward zero: `Int.tdiv`.
* `std::log2` belongs to the C library, not to the repository; it is the
  parameter `log2 : F → F` of the event handler.  The concrete scenarios take
  `F := ℝ` and `log2 := Real.logb 2`.
* An SDL draw call is recorded as the tuple of coordinates handed to
  `SDL_RenderDrawLine`.
-/

namespace CoordinateSystem

/-! ## Data model -/

/-- The mutable globals of `main.cpp` (lines 7-13 and 26-31). -/
structure State (F : Type) where
  SCREEN_WIDTH : ℤ
  SCREEN_HEIGHT : ℤ
  camX : ℤ
  camY : ℤ
  scale : F
  quit : Bool
  dragging : Bool
  lastMouseX : ℤ
  lastMouseY : ℤ

/-- The values the globals are initialised with. -/
def State.initial (F : Type) [LinearOrderedField F] : State F where
  SCREEN_WIDTH := 1920
  SCREEN_HEIGHT := 1080
  camX := 0
  camY := 0
  scale := 50
  quit := false
  dragging := false
  lastMouseX := 0
  lastMouseY := 0

/-- Value of `SDLK_ESCAPE` in the SDL2 headers. -/
def SDLK_ESCAPE : ℤ := 27

/-- Value of `SDL_WINDOWEVENT_RESIZED` in the SDL2 headers. -/
def SDL_WINDOWEVENT_RESIZED : ℕ := 5

/-- Value of `SDL_BUTTON_LEFT` in the SDL2 headers. -/
def SDL_BUTTON_LEFT : ℕ := 1

/-- The `SDL_Event` values the event loop distinguishes, with the fields it reads.
`other` stands for every event type the loop has no branch for. -/
inductive Event where
  /-- An `SDL_QUIT` event. -/
  | quit
  /-- An `SDL_KEYDOWN` event with `key.keysym.sym`. -/
  | keyDown (sym : ℤ)
  /-- An `SDL_WINDOWEVENT` event with `window.event`, `window.data1`, `window.data2`. -/
  | windowEvent (event : ℕ) (data1 data2 : ℤ)
  /-- An `SDL_MOUSEBUTTONDOWN` event with `button.button`, `button.x`, `button.y`. -/
  | mouseButtonDown (button : ℕ) (x y : ℤ)
  /-- An `SDL_MOUSEBUTTONUP` event with `button.button`, `button.x`, `button.y`. -/
  | mouseButtonUp (button : ℕ) (x y : ℤ)
  /-- An `SDL_MOUSEMOTION` event with `motion.x`, `motion.y`. -/
  | mouseMotion (x y : ℤ)
  /-- An `SDL_MOUSEWHEEL` event with `wheel.y`. -/
  | mouseWheel (y : ℤ)
  /-- Any other event. -/
  | other
  deriving DecidableEq, Repr

section Model

variable {F : Type} [LinearOrderedField F] [FloorRing F]

/-- Conversion of a `float` to an `int`: the fractional part is discarded. -/
def truncToInt (x : F) : ℤ :=
  if 0 ≤ x then ⌊x⌋ else ⌈x⌉

/-! ## Viewport transform -/

/-- World X to screen X (`main.cpp` lines 70-73):
`(x - camX) * scale + SCREEN_WIDTH / 2`, the last quotient being an integer division. -/
def toScreenX (s : State F) (x : F) : F :=
  (x - (s.camX : F)) * s.scale + ((Int.tdiv s.SCREEN_WIDTH 2 : ℤ) : F)

/-- World Y to screen Y (`main.cpp` lines 75-78):
`(SCREEN_HEIGHT / 2) - (y - camY) * scale`, the quotient being an integer division. -/
def toScreenY (s : State F) (y : F) : F :=
  ((Int.tdiv s.SCREEN_HEIGHT 2 : ℤ) : F) - (y - (s.camY : F)) * s.scale

/-! ## Event handling -/

/-- The pan speed of a drag move (`main.cpp` line 167):
`1.5f / std::log2(scale + 2.0f)`. -/
def panSpeed (log2 : F → F) (scale : F) : F :=
  1.5 / log2 (scale + 2.0)

/-- The body of the `SDL_PollEvent` loop of `main` (lines 127-186): what one event
does to the globals. -/
def handleEvent (log2 : F → F) (s : State F) : Event → State F
  | .quit => { s with quit := true }
  | .keyDown sym =>
    if sym = SDLK_ESCAPE then { s with quit := true } else s
  | .windowEvent ev data1 data2 =>
    if ev = SDL_WINDOWEVENT_RESIZED then
      { s with SCREEN_WIDTH := data1, SCREEN_HEIGHT := data2 }
    else s
  | .mouseButtonDown button x y =>
    if button = SDL_BUTTON_LEFT then
      { s with dragging := true, lastMouseX := x, lastMouseY := y }
    else s
  | .mouseButtonUp button _ _ =>
    if button = SDL_BUTTON_LEFT then { s with dragging := false } else s
  | .mouseMotion x y =>
    if s.dragging then
      let dx : ℤ := x - s.lastMouseX
      let dy : ℤ := y - s.lastMouseY
      { s with
        camX := truncToInt ((s.camX : F) - (dx : F) * panSpeed log2 s.scale)
        camY := truncToInt ((s.camY : F) + (dy : F) * panSpeed log2 s.scale)
        lastMouseX := x
        lastMouseY := y }
    else s
  | .mouseWheel y =>
    if y > 0 then { s with scale := s.scale / 1.1 }
    else if y < 0 then { s with scale := s.scale * 1.1 }
    else s
  | .other => s

/-- The inner `while (SDL_PollEvent(&e) != 0)` loop of `main` run over a queue of events. -/
def pollEvents (log2 : F → F) (s : State F) (es : List Event) : State F :=
  es.foldl (handleEvent log2) s

/-! ## Grid and function renderers -/

end Model

/-! ## Vocabulary of the specification -/

/-- A pointer-down event of the primary (left) button. -/
def isPrimaryDown : Event → Bool
  | .mouseButtonDown button _ _ => decide (button = SDL_BUTTON_LEFT)
  | _ => false

section Lemmas

variable {F : Type} [LinearOrderedField F]

theorem handleEvent_scale_pos [FloorRing F] (log2 : F → F) (s : State F) (e : Event)
    (h : 0 < s.scale) : 0 < (handleEvent log2 s e).scale := by
  cases e <;> simp only [handleEvent] <;> (try split_ifs) <;> (try exact h)
  · exact div_pos h (by norm_num)
  · exact mul_pos h (by norm_num)

theorem pollEvents_scale_pos [FloorRing F] (log2 : F → F) (es : List Event) :
    ∀ s : State F, 0 < s.scale → 0 < (pollEvents log2 s es).scale := by
  induction es with
  | nil => intro s h; exact h
  | cons e es ih =>
    intro s h
    exact ih _ (handleEvent_scale_pos log2 s e h)

/-- While idle, an event other than a primary button down leaves the drag flag and the
camera alone. -/
theorem handleEvent_idle [FloorRing F] (log2 : F → F) (s : State F) (e : Event)
    (hidle : s.dragging = false) (he : isPrimaryDown e = false) :
    (handleEvent log2 s e).dragging = false ∧ (handleEvent log2 s e).camX = s.camX ∧
      (handleEvent log2 s e).camY = s.camY := by
  cases e <;> simp only [handleEvent] <;> (try split_ifs) <;>
    simp_all [isPrimaryDown]

theorem pollEvents_idle [FloorRing F] (log2 : F → F) (es : List Event) :
    ∀ s : State F, s.dragging = false → (∀ e ∈ es, isPrimaryDown e = false) →
      (pollEvents log2 s es).dragging = false ∧ (pollEvents log2 s es).camX = s.camX ∧
        (pollEvents log2 s es).camY = s.camY := by
  induction es with
  | nil => intro s h _; exact ⟨h, rfl, rfl⟩
  | cons e es ih =>
    intro s h hes
    obtain ⟨h1, h2, h3⟩ :=
      handleEvent_idle log2 s e h (hes e (List.mem_cons_self e es))
    obtain ⟨k1, k2, k3⟩ :=
      ih (handleEvent log2 s e) h1 (fun e' he' => hes e' (List.mem_cons_of_mem e he'))
    exact ⟨k1, k2.trans h2, k3.trans h3⟩

end Lemmas

section Trunc
variable {F : Type} [LinearOrderedField F] [FloorRing F]

end Trunc

section RealLog

end RealLog

section Drag
variable {F : Type} [LinearOrderedField F] [FloorRing F]

end Drag

section RoundTrip
variable {F : Type} [LinearOrderedField F] [FloorRing F]

end RoundTrip

section Scenarios

end Scenarios

section Scenarios2

end Scenarios2

section Claims1
variable {F : Type} [LinearOrderedField F]

/-- End-to-end scenario 1: at the initial globals the world origin maps to (960, 540). -/
theorem initial_origin_on_screen :
    toScreenX (State.initial ℚ) 0 = 960 ∧ toScreenY (State.initial ℚ) 0 = 540 := by
  have h : Int.tdiv 1920 2 = 960 := by decide
  have h' : Int.tdiv 1080 2 = 540 := by decide
  norm_num [toScreenX, toScreenY, State.initial, h, h']

variable [FloorRing F]

/-- C5: `scale > 0` is an invariant of the event loop: after every finite sequence of
events (of any kind, wheel events with any `wheel.y`) processed from the initial globals
the scale is strictly positive. -/
theorem scale_positive_invariant (log2 : F → F) (es : List Event) :
    0 < (pollEvents log2 (State.initial F) es).scale :=
  pollEvents_scale_pos log2 es (State.initial F) (by simp [State.initial])

/-- C6: while idle, a pointer-down of a non-primary button does not set the drag flag,
and along every event sequence without a primary-button pointer-down the drag flag stays
cleared and `camX`, `camY` keep their values after every event (every prefix
`es.take n` of the sequence). -/
theorem no_primary_down_keeps_idle (log2 : F → F) (s : State F) (es : List Event)
    (hidle : s.dragging = false) (hes : ∀ e ∈ es, isPrimaryDown e = false) :
    (∀ (button : ℕ) (x y : ℤ), button ≠ SDL_BUTTON_LEFT →
      (handleEvent log2 s (.mouseButtonDown button x y)).dragging = false) ∧
    ∀ n : ℕ, (pollEvents log2 s (es.take n)).dragging = false ∧
      (pollEvents log2 s (es.take n)).camX = s.camX ∧
      (pollEvents log2 s (es.take n)).camY = s.camY := by
  constructor
  · intro button x y hb
    simp [handleEvent, hb, hidle]
  · intro n
    exact pollEvents_idle log2 (es.take n) s hidle
      (fun e he => hes e (List.mem_of_mem_take he))

/-- C6 (witness): a queue with a right-button press, a move, a wheel event, a resize and
button releases leaves the initial globals idle with the camera at 0. -/
theorem no_primary_down_keeps_idle_witness :
    (State.initial ℝ).dragging = false ∧
    (handleEvent (Real.logb 2) (State.initial ℝ)
      (Event.mouseButtonDown 3 100 100)).dragging = false ∧
    (pollEvents (Real.logb 2) (State.initial ℝ)
      ([Event.mouseButtonDown 3 100 100, Event.mouseMotion 110 120, Event.mouseWheel 1,
        Event.windowEvent SDL_WINDOWEVENT_RESIZED 800 600, Event.mouseButtonUp 3 110 120,
        Event.mouseButtonUp SDL_BUTTON_LEFT 110 120, Event.mouseMotion 0 0].take 7)).dragging
        = false ∧
    (pollEvents (Real.logb 2) (State.initial ℝ)
      ([Event.mouseButtonDown 3 100 100, Event.mouseMotion 110 120, Event.mouseWheel 1,
        Event.windowEvent SDL_WINDOWEVENT_RESIZED 800 600, Event.mouseButtonUp 3 110 120,
        Event.mouseButtonUp SDL_BUTTON_LEFT 110 120, Event.mouseMotion 0 0].take 7)).camX
        = 0 :=
  have h := (no_primary_down_keeps_idle (Real.logb 2) (State.initial ℝ)
      [Event.mouseButtonDown 3 100 100, Event.mouseMotion 110 120, Event.mouseWheel 1,
        Event.windowEvent SDL_WINDOWEVENT_RESIZED 800 600, Event.mouseButtonUp 3 110 120,
        Event.mouseButtonUp SDL_BUTTON_LEFT 110 120, Event.mouseMotion 0 0]
      rfl (by decide)).2 7
  have hb := (no_primary_down_keeps_idle (Real.logb 2) (State.initial ℝ)
      [Event.mouseButtonDown 3 100 100] rfl (by decide)).1 3 100 100 (by decide)
  ⟨rfl, hb, h.1, h.2.1⟩

/-- A wheel-up event divides every screen-space difference by `1.1`. -/
theorem wheel_up_divides_screen_differences (log2 : F → F) (s : State F) (y : ℤ)
    (hy : 0 < y) (a b : F) :
    toScreenX (handleEvent log2 s (.mouseWheel y)) a -
        toScreenX (handleEvent log2 s (.mouseWheel y)) b =
      (toScreenX s a - toScreenX s b) / 1.1 ∧
    toScreenY (handleEvent log2 s (.mouseWheel y)) a -
        toScreenY (handleEvent log2 s (.mouseWheel y)) b =
      (toScreenY s a - toScreenY s b) / 1.1 := by
  simp only [handleEvent, hy, if_true, toScreenX, toScreenY]
  constructor <;> ring

/-- C8 (the code at the failing input): from the initial globals (scale 50) the screen
distance between the world coordinates 0 and 1 is 50 on both axes; after a wheel-up
event it is 500/11, which is smaller, and after a wheel-down event it is 55, which is
larger.  So wheel-up zooms out and wheel-down zooms in. -/
theorem wheel_up_shrinks_unit_distance :
    |toScreenX (State.initial ℝ) 1 - toScreenX (State.initial ℝ) 0| = 50 ∧
    |toScreenX (handleEvent (Real.logb 2) (State.initial ℝ) (.mouseWheel 1)) 1 -
        toScreenX (handleEvent (Real.logb 2) (State.initial ℝ) (.mouseWheel 1)) 0|
      = 500 / 11 ∧
    |toScreenX (handleEvent (Real.logb 2) (State.initial ℝ) (.mouseWheel (-1))) 1 -
        toScreenX (handleEvent (Real.logb 2) (State.initial ℝ) (.mouseWheel (-1))) 0|
      = 55 ∧
    |toScreenY (State.initial ℝ) 1 - toScreenY (State.initial ℝ) 0| = 50 ∧
    |toScreenY (handleEvent (Real.logb 2) (State.initial ℝ) (.mouseWheel 1)) 1 -
        toScreenY (handleEvent (Real.logb 2) (State.initial ℝ) (.mouseWheel 1)) 0|
      = 500 / 11 ∧
    |toScreenY (handleEvent (Real.logb 2) (State.initial ℝ) (.mouseWheel (-1))) 1 -
        toScreenY (handleEvent (Real.logb 2) (State.initial ℝ) (.mouseWheel (-1))) 0|
      = 55 := by
  refine ⟨?_, ?_, ?_, ?_, ?_, ?_⟩
  · norm_num [toScreenX, State.initial]
  · norm_num [toScreenX, State.initial, handleEvent]
  · norm_num [toScreenX, State.initial, handleEvent]
  · norm_num [toScreenY, State.initial]
  · norm_num [toScreenY, State.initial, handleEvent]
  · norm_num [toScreenY, State.initial, handleEvent]

end Claims1

section Claims2
variable {F : Type} [LinearOrderedField F]

variable [FloorRing F]

end Claims2

section Claims3
variable {F : Type} [LinearOrderedField F] [FloorRing F]

end Claims3

end CoordinateSystem
